import Mathlib

/-!
Verification of the default module resolver of `jerry-port/default/default-module.c`.

The development shallowly embeds the module registry, the path canonicalizer
(`jerry_port_normalize_path`), the directory-end computation
(`jerry_port_get_directory_end`), the scoped release
(`jerry_port_module_free` / `jerry_port_module_release`) and the resolver
(`jerry_port_module_resolve`).  Engine-owned collaborators (value kinds,
reference counting, file reading, parsing, `cwk_path_get_absolute`, the
current working directory and the allocator) are modelled as an explicit
environment; memory frees, reference releases and collaborator calls are
recorded in an event trace so that the resource-discipline properties are
statable.
-/

namespace JerryPort

/-- Error kinds used by the resolver: `JERRY_ERROR_COMMON` and the
syntax-shaped kind `JERRY_ERROR_SYNTAX` (named `syn` here). -/
inductive JerryErrorKind where
  | common
  | syn
  deriving DecidableEq

/-- Modelled from the spec: the engine value type `jerry_value_t` is opaque to
this subsystem, which only needs identity comparison, the object test
`jerry_value_is_object`, the error test `jerry_value_is_error` and error
construction.  We model it as an inductive of the externally visible kinds;
equality of values models identity of `jerry_value_t` handles. -/
inductive JerryValue where
  | undefined
  | null
  | boolean (b : Bool)
  | number (n : Int)
  | string (s : String)
  | object (id : Nat)
  | errorVal (kind : JerryErrorKind) (msg : String)
  deriving DecidableEq

/-- Modelled from the spec: `jerry_value_is_object`, true exactly on object
values. -/
def jerry_value_is_object : JerryValue → Bool
  | .object _ => true
  | _ => false

/-- Modelled from the spec: `jerry_value_is_error`, true exactly on error
values. -/
def jerry_value_is_error : JerryValue → Bool
  | .errorVal _ _ => true
  | _ => false

/-- Modelled from the spec: `jerry_create_error` builds an error value of the
given kind carrying the given message. -/
def jerry_create_error (kind : JerryErrorKind) (msg : String) : JerryValue :=
  .errorVal kind msg

/-- Modelled from the spec: `jerry_acquire_value` increments the reference
count and returns the same handle; on values it is the identity. -/
def jerry_acquire_value (v : JerryValue) : JerryValue := v

/-- Separator test of `jerry_port_get_directory_end`: on non-Windows builds
only `/` is a separator; on Windows (`win = true`) `\` is one as well. -/
def jerry_port_is_separator (win : Bool) (c : Char) : Bool :=
  c = '/' || (win && c = '\\')

/-- Backward scan of `jerry_port_get_directory_end`: `end_p` starts at
`path + n` and moves left while no separator is found at `end_p[-1]`.
The default character handed to `getD` is arbitrary; the scan only reads
indices below `path.length`. -/
def jerry_port_get_directory_end_from (win : Bool) (path : List Char) : Nat → Nat
  | 0 => 0
  | n + 1 =>
    if jerry_port_is_separator win (path.getD n 'a') = true then n + 1
    else jerry_port_get_directory_end_from win path n

/-- `jerry_port_get_directory_end`: offset just past the last path separator
of the string, or `0` when the string has no separator. -/
def jerry_port_get_directory_end (win : Bool) (path : List Char) : Nat :=
  jerry_port_get_directory_end_from win path path.length

/-- `jerry_port_get_cwd (NULL, 0)`: the underlying `getcwd` either yields a
path or fails; on failure the function falls back to allocating the
two-byte string `"/"`, so it returns no path only when that allocation
fails as well. -/
def jerry_port_get_cwd (getcwdResult : Option String) (fallbackAlloc : Bool) :
    Option String :=
  match getcwdResult with
  | some s => some s
  | none => if fallbackAlloc then some "/" else none

/-- Collaborator environment of one resolver call: the engine primitives,
the path-math primitive `cwk_path_get_absolute` (total, per its contract),
the file reader, the parser, and the outcome of each allocation site. -/
structure ResolveEnv where
  /-- `jerry_get_utf8_string_size` plus `jerry_string_to_utf8_char_buffer`:
  the UTF-8 text of the specifier string value. -/
  stringOf : JerryValue → String
  /-- `jerry_get_global_object ()`: the realm current at call time. -/
  globalObject : JerryValue
  /-- result of the raw `getcwd` call inside `jerry_port_get_cwd`. -/
  getcwdResult : Option String
  /-- whether the fallback `malloc (2)` of `jerry_port_get_cwd` succeeds. -/
  cwdFallbackAlloc : Bool
  /-- whether `malloc (in_path_length + 1)` for `in_path_pz` succeeds. -/
  allocInPathZ : Bool
  /-- whether `malloc (base_path_length + 1)` for `base_path_pz` succeeds. -/
  allocBasePathZ : Bool
  /-- whether `malloc (path_p_len + 1)` for the normalized output succeeds. -/
  allocPathOut : Bool
  /-- whether `malloc (in_path_length + 1)` for `in_path_p` in the resolver
  succeeds.  The resolver performs no NULL check on this one. -/
  allocSpecifierBuf : Bool
  /-- whether `malloc (sizeof (jerry_port_module_t))` succeeds.  The resolver
  performs no NULL check on this one either. -/
  allocRecord : Bool
  /-- Modelled from the spec: `cwk_path_get_absolute` of the cwalk
  collaborator, a total path-math primitive taking the base directory and
  the path and producing the absolutized, normalized path. -/
  getAbsolute : String → String → String
  /-- `jerry_port_read_source`: the bytes of the file at a path, or `none`
  when the path is missing, a directory, or unreadable. -/
  readSource : String → Option (List Nat)
  /-- `jerry_parse` on source bytes with a resource name: yields a module
  value or an error value. -/
  parse : List Nat → String → JerryValue

/-- Result of `jerry_port_normalize_path`: the produced path (or `none`) and
the allocation/free bookkeeping of the two intermediate null-terminated
copies (the specifier copy `in_path_pz` and the base copy `base_path_pz`,
the latter possibly obtained from `jerry_port_get_cwd`). -/
structure NormalizeResult where
  path_p : Option String
  inCopyAllocated : Bool
  inCopyFreed : Bool
  baseAllocated : Bool
  baseFreed : Bool
  deriving DecidableEq

/-- `jerry_port_normalize_path`: copy the specifier into a fresh
null-terminated buffer, obtain the base directory (a copy of the first
`base_path_length` bytes of `base_path`, or the working directory when
that length is zero), run the two-phase `cwk_path_get_absolute`, free both
intermediate copies, and return the output buffer (NULL when its
allocation failed). -/
def jerry_port_normalize_path (env : ResolveEnv) (in_path : String)
    (base_path : String) (base_path_length : Nat) : NormalizeResult :=
  if env.allocInPathZ = false then
    { path_p := none, inCopyAllocated := false, inCopyFreed := false,
      baseAllocated := false, baseFreed := false }
  else
    match (if 0 < base_path_length then
            (if env.allocBasePathZ then some (base_path.take base_path_length)
             else none)
           else jerry_port_get_cwd env.getcwdResult env.cwdFallbackAlloc) with
    | none =>
      { path_p := none, inCopyAllocated := true, inCopyFreed := true,
        baseAllocated := false, baseFreed := false }
    | some bz =>
      { path_p :=
          (if env.allocPathOut then some (env.getAbsolute bz in_path)
           else none),
        inCopyAllocated := true, inCopyFreed := true,
        baseAllocated := true, baseFreed := true }

/-- A module descriptor (`jerry_port_module_t`); the `next_p` linkage is
encoded by the registry list. -/
structure jerry_port_module_t where
  path_p : String
  base_path_length : Nat
  realm : JerryValue
  module : JerryValue
  deriving DecidableEq

/-- State of the default module manager: the registry list headed by
`module_head_p`, plus the native-pointer attachments placed on parsed
module values by `jerry_set_object_native_pointer` (most recent first). -/
structure PortState where
  modules : List jerry_port_module_t
  attachments : List (JerryValue × jerry_port_module_t)
  deriving DecidableEq

/-- The manager state after `jerry_port_module_manager_init`. -/
def initState : PortState := { modules := [], attachments := [] }

/-- Modelled from the spec: `jerry_get_object_native_pointer` with the
module native-info, returning the record attached to the value, if any. -/
def jerry_get_object_native_pointer :
    List (JerryValue × jerry_port_module_t) → JerryValue →
    Option jerry_port_module_t
  | [], _ => none
  | (v, m) :: rest, r =>
    if v = r then some m else jerry_get_object_native_pointer rest r

/-- The cache-lookup scan of `jerry_port_module_resolve`: walk the registry
and return the first record whose realm is identical and whose path is
string-equal (`strcmp`). -/
def jerry_port_module_lookup (realm : JerryValue) (path : String) :
    List jerry_port_module_t → Option jerry_port_module_t
  | [] => none
  | m :: rest =>
    if m.realm = realm ∧ m.path_p = path then some m
    else jerry_port_module_lookup realm path rest

/-- One release of a matching record inside `jerry_port_module_free`:
`free (module_p->path_p)`, `jerry_release_value (module_p->realm)`,
`jerry_release_value (module_p->module)`, `free (module_p)`. -/
inductive FreeEvent where
  | freeRecord (path : String) (realm module : JerryValue)
  deriving DecidableEq

/-- The splice loop of `jerry_port_module_free`: a single forward pass with a
trailing predecessor pointer, removing every record matched by the filter
and keeping the rest in place.  Returns the surviving registry together
with the release events of the removed records. -/
def jerry_port_module_free_loop (release_all : Bool) (realm : JerryValue) :
    List jerry_port_module_t → List jerry_port_module_t × List FreeEvent
  | [] => ([], [])
  | m :: rest =>
    let r := jerry_port_module_free_loop release_all realm rest
    if release_all = true ∨ m.realm = realm then
      (r.1, .freeRecord m.path_p m.realm m.module :: r.2)
    else (m :: r.1, r.2)

/-- `jerry_port_module_free`: release all records when the realm argument is
not an object, otherwise exactly the records whose realm is identical to
it. -/
def jerry_port_module_free (realm : JerryValue)
    (modules : List jerry_port_module_t) :
    List jerry_port_module_t × List FreeEvent :=
  jerry_port_module_free_loop (! jerry_value_is_object realm) realm modules

/-- `jerry_port_module_release`: run `jerry_port_module_free` on the manager
held in the context data. -/
def jerry_port_module_release (realm : JerryValue) (st : PortState) :
    PortState × List FreeEvent :=
  let r := jerry_port_module_free realm st.modules
  ({ st with modules := r.1 }, r.2)

/-- Observable events of one `jerry_port_module_resolve` call, in program
order: collaborator calls, buffer frees and reference releases. -/
inductive Event where
  | readSource (path : String)
  | parseCall (path : String) (resource : String)
  | freeSourceBuf
  | freeSpecifierBuf
  | freePathBuf
  | releaseRealm (v : JerryValue)
  | acquireModule (v : JerryValue)
  deriving DecidableEq

/-- Outcome of a resolver call: a returned value, or an undefined-behavior
null-pointer dereference (an unchecked `malloc` returned NULL and the code
wrote through it). -/
inductive ResolveOutcome where
  | ok (v : JerryValue)
  | nullDeref
  deriving DecidableEq

/-- Full result of one resolver call. -/
structure ResolveResult where
  outcome : ResolveOutcome
  state : PortState
  trace : List Event
  deriving DecidableEq

/-- Base-directory computation at the top of `jerry_port_module_resolve`:
when the referrer carries an attached module record, its path and
`base_path_length` are used; otherwise the base is NULL with length 0. -/
def resolveBasePath (st : PortState) (referrer : JerryValue) : String × Nat :=
  match jerry_get_object_native_pointer st.attachments referrer with
  | some m => (m.path_p, m.base_path_length)
  | none => ("", 0)

/-- `jerry_port_module_resolve`: copy the specifier, normalize it against
the referrer's base directory, scan the registry for a (realm, path) hit,
and on a miss read and parse the source and insert a fresh record tagged
with the current global object.  `user_p` is the ignored user-data
argument.  The two unchecked `malloc` calls (specifier buffer and module
record) surface as `nullDeref` when they fail, exactly as the C code
dereferences their result unconditionally. -/
def jerry_port_module_resolve (env : ResolveEnv) (st : PortState)
    (specifier referrer : JerryValue) (user_p : Nat) : ResolveResult :=
  if env.allocSpecifierBuf = false then
    { outcome := .nullDeref, state := st, trace := [] }
  else
    match (jerry_port_normalize_path env (env.stringOf specifier)
            (resolveBasePath st referrer).1
            (resolveBasePath st referrer).2).path_p with
    | none =>
      { outcome := .ok (jerry_create_error .common "Out of memory"),
        state := st, trace := [] }
    | some path_p =>
      match jerry_port_module_lookup env.globalObject path_p st.modules with
      | some m =>
        { outcome := .ok (jerry_acquire_value m.module), state := st,
          trace := [.freePathBuf, .freeSpecifierBuf,
                    .releaseRealm env.globalObject,
                    .acquireModule m.module] }
      | none =>
        match env.readSource path_p with
        | none =>
          { outcome := .ok (jerry_create_error .syn "Module file not found"),
            state := st,
            trace := [.readSource path_p, .freePathBuf, .freeSpecifierBuf,
                      .releaseRealm env.globalObject] }
        | some source_p =>
          if jerry_value_is_error
              (env.parse source_p (env.stringOf specifier)) = true then
            { outcome := .ok (env.parse source_p (env.stringOf specifier)),
              state := st,
              trace := [.readSource path_p,
                        .parseCall path_p (env.stringOf specifier),
                        .freeSourceBuf, .freeSpecifierBuf, .freePathBuf,
                        .releaseRealm env.globalObject] }
          else if env.allocRecord = false then
            { outcome := .nullDeref, state := st,
              trace := [.readSource path_p,
                        .parseCall path_p (env.stringOf specifier),
                        .freeSourceBuf, .freeSpecifierBuf] }
          else
            { outcome := .ok (env.parse source_p (env.stringOf specifier)),
              state :=
                { modules :=
                    { path_p := path_p,
                      base_path_length :=
                        jerry_port_get_directory_end false path_p.data,
                      realm := env.globalObject,
                      module := jerry_acquire_value
                        (env.parse source_p (env.stringOf specifier)) } ::
                    st.modules,
                  attachments :=
                    (env.parse source_p (env.stringOf specifier),
                     { path_p := path_p,
                       base_path_length :=
                         jerry_port_get_directory_end false path_p.data,
                       realm := env.globalObject,
                       module := jerry_acquire_value
                         (env.parse source_p (env.stringOf specifier)) }) ::
                    st.attachments },
              trace := [.readSource path_p,
                        .parseCall path_p (env.stringOf specifier),
                        .freeSourceBuf, .freeSpecifierBuf,
                        .acquireModule
                          (env.parse source_p (env.stringOf specifier))] }

/-- Registry states reachable from the freshly initialized manager by any
sequence of resolver and release calls. -/
inductive Reachable : PortState → Prop where
  | init : Reachable initState
  | step_resolve (env : ResolveEnv) (specifier referrer : JerryValue)
      (user_p : Nat) {st : PortState} :
      Reachable st →
      Reachable (jerry_port_module_resolve env st specifier referrer
        user_p).state
  | step_release (realm : JerryValue) {st : PortState} :
      Reachable st →
      Reachable (jerry_port_module_release realm st).1

/-- Two records have distinct cache keys: they differ in realm or in path. -/
def distinctKey (a b : jerry_port_module_t) : Prop :=
  ¬ (a.realm = b.realm ∧ a.path_p = b.path_p)

/-- The per-context uniqueness invariant of the registry: pairwise distinct
(realm, path) keys. -/
def UniqueKeys (ms : List jerry_port_module_t) : Prop :=
  List.Pairwise distinctKey ms

/-! ## Directory-end characterization -/

lemma directory_end_from_spec (win : Bool) (path : List Char) :
    ∀ n : Nat,
      (jerry_port_get_directory_end_from win path n = 0 ∧
        ∀ j : Nat, j < n →
          jerry_port_is_separator win (path.getD j 'a') = false) ∨
      (∃ i : Nat, i < n ∧
        jerry_port_get_directory_end_from win path n = i + 1 ∧
        jerry_port_is_separator win (path.getD i 'a') = true ∧
        ∀ j : Nat, i < j → j < n →
          jerry_port_is_separator win (path.getD j 'a') = false) := by
  intro n
  induction n with
  | zero => exact Or.inl ⟨rfl, fun j hj => absurd hj (Nat.not_lt_zero j)⟩
  | succ n ih =>
    have hred : jerry_port_get_directory_end_from win path (n + 1) =
        if jerry_port_is_separator win (path.getD n 'a') = true then n + 1
        else jerry_port_get_directory_end_from win path n := rfl
    by_cases h : jerry_port_is_separator win (path.getD n 'a') = true
    · refine Or.inr ⟨n, Nat.lt_succ_self n, ?_, h, ?_⟩
      · rw [hred, if_pos h]
      · intro j hj hj2
        omega
    · have hfalse : jerry_port_is_separator win (path.getD n 'a') = false :=
        Bool.eq_false_iff.mpr h
      have hstep : jerry_port_get_directory_end_from win path (n + 1) =
          jerry_port_get_directory_end_from win path n := by
        rw [hred, if_neg h]
      rcases ih with ⟨h0, hall⟩ | ⟨i, hi, heq, hsep, habove⟩
      · refine Or.inl ⟨hstep.trans h0, ?_⟩
        intro j hj
        rcases Nat.lt_succ_iff_lt_or_eq.mp hj with hj1 | hj1
        · exact hall j hj1
        · exact hj1 ▸ hfalse
      · refine Or.inr ⟨i, Nat.lt_succ_of_lt hi, hstep.trans heq, hsep, ?_⟩
        intro j hij hj
        rcases Nat.lt_succ_iff_lt_or_eq.mp hj with hj1 | hj1
        · exact habove j hij hj1
        · exact hj1 ▸ hfalse

lemma forall_index_iff_forall_mem (win : Bool) (path : List Char)
    (hall : ∀ j : Nat, j < path.length →
      jerry_port_is_separator win (path.getD j 'a') = false) :
    ∀ c ∈ path, jerry_port_is_separator win c = false := by
  intro c hc
  rcases List.mem_iff_get.mp hc with ⟨⟨j, hj⟩, hget⟩
  have hgd : path.getD j 'a' = c := by
    rw [List.getD_eq_getElem path 'a' hj]
    simpa [List.get_eq_getElem] using hget
  have := hall j hj
  rwa [hgd] at this

/-- C7: for every path string (and on both separator conventions),
`jerry_port_get_directory_end` returns the offset just past the last
path-separator character, and `0` when the string contains no separator;
in particular it maps `"/a/b/c.js"` to `5` and `"bare.js"` to `0`. -/
theorem directory_end_correct :
    (∀ (win : Bool) (path : List Char),
      (jerry_port_get_directory_end win path = 0 ∧
        ∀ c ∈ path, jerry_port_is_separator win c = false) ∨
      (∃ i : Nat, i < path.length ∧
        jerry_port_get_directory_end win path = i + 1 ∧
        jerry_port_is_separator win (path.getD i 'a') = true ∧
        ∀ j : Nat, i < j → j < path.length →
          jerry_port_is_separator win (path.getD j 'a') = false)) ∧
    jerry_port_get_directory_end false "/a/b/c.js".data = 5 ∧
    jerry_port_get_directory_end false "bare.js".data = 0 ∧
    jerry_port_get_directory_end true "/a/b/c.js".data = 5 ∧
    jerry_port_get_directory_end true "bare.js".data = 0 := by
  refine ⟨?_, by decide, by decide, by decide, by decide⟩
  intro win path
  rcases directory_end_from_spec win path path.length with ⟨h0, hall⟩ | hx
  · exact Or.inl ⟨h0, forall_index_iff_forall_mem win path hall⟩
  · exact Or.inr hx

/-- Witness for C7: the characterization applied to the concrete path
`"/x/y.js"`, whose directory end is 3. -/
theorem directory_end_correct_witness :
    (jerry_port_get_directory_end false "/x/y.js".data = 0 ∧
      ∀ c ∈ "/x/y.js".data, jerry_port_is_separator false c = false) ∨
    (∃ i : Nat, i < "/x/y.js".data.length ∧
      jerry_port_get_directory_end false "/x/y.js".data = i + 1 ∧
      jerry_port_is_separator false ("/x/y.js".data.getD i 'a') = true ∧
      ∀ j : Nat, i < j → j < "/x/y.js".data.length →
        jerry_port_is_separator false ("/x/y.js".data.getD j 'a') = false) :=
  directory_end_correct.1 false "/x/y.js".data

/-! ## Canonicalization failure semantics -/

/-- C6: `jerry_port_normalize_path` returns no path exactly when one of its
allocations fails (the specifier copy, the base-directory copy, the
working-directory retrieval used when the base length is zero, or the
output buffer); with all allocations succeeding it canonicalizes every
input, the empty specifier included, to some path; and both intermediate
null-terminated copies are freed whenever they were allocated, on success
and on failure alike. -/
theorem normalize_path_failure_semantics (env : ResolveEnv) (in_path : String)
    (base_path : String) (base_path_length : Nat) :
    ((jerry_port_normalize_path env in_path base_path
        base_path_length).path_p = none ↔
      (env.allocInPathZ = false ∨
        (0 < base_path_length ∧ env.allocBasePathZ = false) ∨
        (base_path_length = 0 ∧
          jerry_port_get_cwd env.getcwdResult env.cwdFallbackAlloc = none) ∨
        env.allocPathOut = false)) ∧
    ((jerry_port_normalize_path env in_path base_path
        base_path_length).inCopyAllocated = true →
      (jerry_port_normalize_path env in_path base_path
        base_path_length).inCopyFreed = true) ∧
    ((jerry_port_normalize_path env in_path base_path
        base_path_length).baseAllocated = true →
      (jerry_port_normalize_path env in_path base_path
        base_path_length).baseFreed = true) ∧
    (env.allocInPathZ = true → env.allocBasePathZ = true →
      env.allocPathOut = true → env.cwdFallbackAlloc = true →
      ∃ s : String, (jerry_port_normalize_path env in_path base_path
        base_path_length).path_p = some s) := by
  unfold jerry_port_normalize_path jerry_port_get_cwd
  cases h1 : env.allocInPathZ <;>
    cases h2 : env.allocBasePathZ <;>
      cases h3 : env.allocPathOut <;>
        cases h4 : env.cwdFallbackAlloc <;>
          cases h5 : env.getcwdResult <;>
            rcases Nat.eq_zero_or_pos base_path_length with h6 | h6 <;>
              simp_all <;> omega

/-- Witness for C6: with every allocation succeeding, the empty specifier
against an empty base still canonicalizes to some path, and the specifier
copy is freed. -/
theorem normalize_path_failure_semantics_witness :
    (∃ s : String, (jerry_port_normalize_path
      { stringOf := fun _ => "", globalObject := .object 0,
        getcwdResult := some "/home", cwdFallbackAlloc := true,
        allocInPathZ := true, allocBasePathZ := true, allocPathOut := true,
        allocSpecifierBuf := true, allocRecord := true,
        getAbsolute := fun b p => b ++ "/" ++ p,
        readSource := fun _ => some [], parse := fun _ _ => .object 1 }
      "" "" 0).path_p = some s) ∧
    ((jerry_port_normalize_path
      { stringOf := fun _ => "", globalObject := .object 0,
        getcwdResult := some "/home", cwdFallbackAlloc := true,
        allocInPathZ := true, allocBasePathZ := true, allocPathOut := true,
        allocSpecifierBuf := true, allocRecord := true,
        getAbsolute := fun b p => b ++ "/" ++ p,
        readSource := fun _ => some [], parse := fun _ _ => .object 1 }
      "" "" 0).inCopyFreed = true) :=
  ⟨(normalize_path_failure_semantics _ "" "" 0).2.2.2 rfl rfl rfl rfl,
   (normalize_path_failure_semantics _ "" "" 0).2.1 rfl⟩

/-! ## Registry release: filter characterization and lookup lemmas -/

lemma free_loop_scoped (c : JerryValue) (ms : List jerry_port_module_t) :
    (jerry_port_module_free_loop false c ms).1 =
      ms.filter (fun m => decide (¬ m.realm = c)) ∧
    (jerry_port_module_free_loop false c ms).2 =
      (ms.filter (fun m => decide (m.realm = c))).map
        (fun m => FreeEvent.freeRecord m.path_p m.realm m.module) := by
  induction ms with
  | nil => exact ⟨rfl, rfl⟩
  | cons m rest ih =>
    by_cases hm : m.realm = c <;>
      simp [jerry_port_module_free_loop, hm, ih.1, ih.2, List.filter_cons]

lemma free_loop_all (c : JerryValue) (ms : List jerry_port_module_t) :
    (jerry_port_module_free_loop true c ms).1 = [] ∧
    (jerry_port_module_free_loop true c ms).2 =
      ms.map (fun m => FreeEvent.freeRecord m.path_p m.realm m.module) := by
  induction ms with
  | nil => exact ⟨rfl, rfl⟩
  | cons m rest ih => simp [jerry_port_module_free_loop, ih.1, ih.2]

lemma lookup_eq_none_iff (realm : JerryValue) (path : String)
    (ms : List jerry_port_module_t) :
    jerry_port_module_lookup realm path ms = none ↔
      ∀ m ∈ ms, ¬ (m.realm = realm ∧ m.path_p = path) := by
  induction ms with
  | nil => simp [jerry_port_module_lookup]
  | cons m rest ih =>
    have hred : jerry_port_module_lookup realm path (m :: rest) =
        if m.realm = realm ∧ m.path_p = path then some m
        else jerry_port_module_lookup realm path rest := rfl
    by_cases hm : m.realm = realm ∧ m.path_p = path
    · rw [hred, if_pos hm]
      simp [hm]
    · rw [hred, if_neg hm, ih]
      constructor
      · intro hall x hx
        rcases List.mem_cons.mp hx with rfl | hx2
        · exact hm
        · exact hall x hx2
      · intro hall x hx
        exact hall x (List.mem_cons_of_mem m hx)

lemma lookup_filter_self (c : JerryValue) (path : String)
    (ms : List jerry_port_module_t) :
    jerry_port_module_lookup c path
      (ms.filter (fun m => decide (¬ m.realm = c))) = none := by
  rw [lookup_eq_none_iff]
  intro m hm hkey
  have hp := List.of_mem_filter hm
  simp only [decide_eq_true_eq] at hp
  exact hp hkey.1

lemma lookup_filter_other (c1 c2 : JerryValue) (hne : c2 ≠ c1) (path : String)
    (ms : List jerry_port_module_t) :
    jerry_port_module_lookup c2 path
      (ms.filter (fun m => decide (¬ m.realm = c1))) =
    jerry_port_module_lookup c2 path ms := by
  induction ms with
  | nil => rfl
  | cons m rest ih =>
    have hred : jerry_port_module_lookup c2 path (m :: rest) =
        if m.realm = c2 ∧ m.path_p = path then some m
        else jerry_port_module_lookup c2 path rest := rfl
    by_cases hm : m.realm = c1
    · have hdrop : (m :: rest).filter (fun m => decide (¬ m.realm = c1)) =
          rest.filter (fun m => decide (¬ m.realm = c1)) := by
        simp [List.filter_cons, hm]
      have hcond : ¬ (m.realm = c2 ∧ m.path_p = path) := by
        intro hk
        exact hne (hk.1 ▸ hm)
      rw [hdrop, hred, if_neg hcond, ih]
    · have hkeep : (m :: rest).filter (fun m => decide (¬ m.realm = c1)) =
          m :: rest.filter (fun m => decide (¬ m.realm = c1)) := by
        simp [List.filter_cons, hm]
      rw [hkeep]
      have hred2 : jerry_port_module_lookup c2 path
          (m :: rest.filter (fun m => decide (¬ m.realm = c1))) =
          if m.realm = c2 ∧ m.path_p = path then some m
          else jerry_port_module_lookup c2 path
            (rest.filter (fun m => decide (¬ m.realm = c1))) := rfl
      rw [hred2, hred]
      by_cases hk : m.realm = c2 ∧ m.path_p = path
      · rw [if_pos hk, if_pos hk]
      · rw [if_neg hk, if_neg hk, ih]

lemma filter_partition_length (p : jerry_port_module_t → Bool)
    (l : List jerry_port_module_t) :
    (l.filter p).length + (l.filter (fun a => ! p a)).length = l.length := by
  induction l with
  | nil => rfl
  | cons a l ih =>
    by_cases h : p a = true <;> simp [List.filter_cons, h] <;> omega

/-- C3: after a scoped release of an object realm `c1`, lookups under `c1`
find nothing for any path; lookups under any distinct realm `c2` are
unchanged; the surviving registry is exactly the records whose realm
differs from `c1`, in order; every matching record was released (its path
freed and its realm and module references released); and the single pass
accounts for every record, matching or not. -/
theorem scoped_release_correct (c1 c2 : JerryValue) (st : PortState)
    (h1 : jerry_value_is_object c1 = true) (hne : c2 ≠ c1) :
    (∀ P : String, jerry_port_module_lookup c1 P
      (jerry_port_module_release c1 st).1.modules = none) ∧
    (∀ P : String, jerry_port_module_lookup c2 P
      (jerry_port_module_release c1 st).1.modules =
      jerry_port_module_lookup c2 P st.modules) ∧
    (jerry_port_module_release c1 st).1.modules =
      st.modules.filter (fun m => decide (¬ m.realm = c1)) ∧
    (jerry_port_module_release c1 st).2 =
      (st.modules.filter (fun m => decide (m.realm = c1))).map
        (fun m => FreeEvent.freeRecord m.path_p m.realm m.module) ∧
    (jerry_port_module_release c1 st).1.modules.length +
      (jerry_port_module_release c1 st).2.length = st.modules.length := by
  have hfree : jerry_port_module_free c1 st.modules =
      jerry_port_module_free_loop false c1 st.modules := by
    unfold jerry_port_module_free
    rw [h1]
    rfl
  have hmods : (jerry_port_module_release c1 st).1.modules =
      (jerry_port_module_free_loop false c1 st.modules).1 := by
    unfold jerry_port_module_release
    rw [hfree]
  have hevs : (jerry_port_module_release c1 st).2 =
      (jerry_port_module_free_loop false c1 st.modules).2 := by
    unfold jerry_port_module_release
    rw [hfree]
  have hs := free_loop_scoped c1 st.modules
  refine ⟨?_, ?_, ?_, ?_, ?_⟩
  · intro P
    rw [hmods, hs.1]
    exact lookup_filter_self c1 P st.modules
  · intro P
    rw [hmods, hs.1]
    exact lookup_filter_other c1 c2 hne P st.modules
  · rw [hmods, hs.1]
  · rw [hevs, hs.2]
  · rw [hmods, hs.1, hevs, hs.2, List.length_map]
    have hp := filter_partition_length (fun m => decide (m.realm = c1))
      st.modules
    have hnegp : (fun m : jerry_port_module_t =>
        ! decide (m.realm = c1)) = fun m => decide (¬ m.realm = c1) := by
      funext m
      simp [decide_not]
    rw [hnegp] at hp
    omega

/-- Witness for C3: releasing realm `object 1` from a registry holding one
record under `object 1` and one under `object 2` empties all `object 1`
lookups while an `object 2` lookup still succeeds. -/
theorem scoped_release_correct_witness :
    jerry_port_module_lookup (.object 1) "/a.js"
      (jerry_port_module_release (.object 1)
        { modules := [{ path_p := "/a.js", base_path_length := 1,
                        realm := .object 1, module := .object 10 },
                      { path_p := "/b.js", base_path_length := 1,
                        realm := .object 2, module := .object 20 }],
          attachments := [] }).1.modules = none ∧
    jerry_port_module_lookup (.object 2) "/b.js"
      (jerry_port_module_release (.object 1)
        { modules := [{ path_p := "/a.js", base_path_length := 1,
                        realm := .object 1, module := .object 10 },
                      { path_p := "/b.js", base_path_length := 1,
                        realm := .object 2, module := .object 20 }],
          attachments := [] }).1.modules =
    jerry_port_module_lookup (.object 2) "/b.js"
      [{ path_p := "/a.js", base_path_length := 1,
         realm := .object 1, module := .object 10 },
       { path_p := "/b.js", base_path_length := 1,
         realm := .object 2, module := .object 20 }] :=
  ⟨(scoped_release_correct (.object 1) (.object 2) _ rfl (by decide)).1
      "/a.js",
   (scoped_release_correct (.object 1) (.object 2) _ rfl (by decide)).2.1
      "/b.js"⟩

/-- C10: the match-all mode of the release filter is selected by value kind:
for every non-object value the release empties the whole registry,
releasing every record; an object argument releases exactly the records
with an identical realm; and the non-object kinds are precisely undefined,
null, booleans, numbers, strings and errors. -/
theorem release_match_all_by_kind (v : JerryValue) (st : PortState)
    (h : jerry_value_is_object v = false) :
    (jerry_port_module_release v st).1.modules = [] ∧
    (jerry_port_module_release v st).2 =
      st.modules.map (fun m => FreeEvent.freeRecord m.path_p m.realm
        m.module) ∧
    (∀ w : JerryValue, jerry_value_is_object w = true →
      (jerry_port_module_release w st).1.modules =
        st.modules.filter (fun m => decide (¬ m.realm = w))) ∧
    jerry_value_is_object .undefined = false ∧
    jerry_value_is_object .null = false ∧
    (∀ b : Bool, jerry_value_is_object (.boolean b) = false) ∧
    (∀ n : Int, jerry_value_is_object (.number n) = false) ∧
    (∀ s : String, jerry_value_is_object (.string s) = false) ∧
    (∀ (k : JerryErrorKind) (msg : String),
      jerry_value_is_object (.errorVal k msg) = false) ∧
    (∀ i : Nat, jerry_value_is_object (.object i) = true) := by
  have hfree : jerry_port_module_free v st.modules =
      jerry_port_module_free_loop true v st.modules := by
    unfold jerry_port_module_free
    rw [h]
    rfl
  have ha := free_loop_all v st.modules
  refine ⟨?_, ?_, ?_, rfl, rfl, fun _ => rfl, fun _ => rfl, fun _ => rfl,
    fun _ _ => rfl, fun _ => rfl⟩
  · show (jerry_port_module_free v st.modules).1 = []
    rw [hfree, ha.1]
  · show (jerry_port_module_free v st.modules).2 = _
    rw [hfree, ha.2]
  · intro w hw
    have hfw : jerry_port_module_free w st.modules =
        jerry_port_module_free_loop false w st.modules := by
      unfold jerry_port_module_free
      rw [hw]
      rfl
    show (jerry_port_module_free w st.modules).1 = _
    rw [hfw, (free_loop_scoped w st.modules).1]

/-- Witness for C10: releasing with the non-object value `undefined` empties
a registry holding records under two distinct object realms. -/
theorem release_match_all_by_kind_witness :
    (jerry_port_module_release .undefined
      { modules := [{ path_p := "/a.js", base_path_length := 1,
                      realm := .object 1, module := .object 10 },
                    { path_p := "/b.js", base_path_length := 1,
                      realm := .object 2, module := .object 20 }],
        attachments := [] }).1.modules = [] :=
  (release_match_all_by_kind .undefined _ rfl).1

/-! ## Resolver branch lemmas -/

lemma resolve_hit (env : ResolveEnv) (st : PortState)
    (specifier referrer : JerryValue) (u : Nat) (path : String)
    (m : jerry_port_module_t)
    (ha : env.allocSpecifierBuf = true)
    (hn : (jerry_port_normalize_path env (env.stringOf specifier)
      (resolveBasePath st referrer).1
      (resolveBasePath st referrer).2).path_p = some path)
    (hm : jerry_port_module_lookup env.globalObject path st.modules =
      some m) :
    jerry_port_module_resolve env st specifier referrer u =
      { outcome := .ok (jerry_acquire_value m.module), state := st,
        trace := [.freePathBuf, .freeSpecifierBuf,
                  .releaseRealm env.globalObject,
                  .acquireModule m.module] } := by
  unfold jerry_port_module_resolve
  rw [ha, if_neg (by simp), hn]
  simp only [hm]

lemma resolve_missing (env : ResolveEnv) (st : PortState)
    (specifier referrer : JerryValue) (u : Nat) (path : String)
    (ha : env.allocSpecifierBuf = true)
    (hn : (jerry_port_normalize_path env (env.stringOf specifier)
      (resolveBasePath st referrer).1
      (resolveBasePath st referrer).2).path_p = some path)
    (hmiss : jerry_port_module_lookup env.globalObject path st.modules =
      none)
    (hread : env.readSource path = none) :
    jerry_port_module_resolve env st specifier referrer u =
      { outcome := .ok (jerry_create_error .syn "Module file not found"),
        state := st,
        trace := [.readSource path, .freePathBuf, .freeSpecifierBuf,
                  .releaseRealm env.globalObject] } := by
  unfold jerry_port_module_resolve
  rw [ha, if_neg (by simp), hn]
  simp only [hmiss, hread]

lemma resolve_parse_error (env : ResolveEnv) (st : PortState)
    (specifier referrer : JerryValue) (u : Nat) (path : String)
    (src : List Nat)
    (ha : env.allocSpecifierBuf = true)
    (hn : (jerry_port_normalize_path env (env.stringOf specifier)
      (resolveBasePath st referrer).1
      (resolveBasePath st referrer).2).path_p = some path)
    (hmiss : jerry_port_module_lookup env.globalObject path st.modules =
      none)
    (hread : env.readSource path = some src)
    (herr : jerry_value_is_error
      (env.parse src (env.stringOf specifier)) = true) :
    jerry_port_module_resolve env st specifier referrer u =
      { outcome := .ok (env.parse src (env.stringOf specifier)), state := st,
        trace := [.readSource path,
                  .parseCall path (env.stringOf specifier),
                  .freeSourceBuf, .freeSpecifierBuf, .freePathBuf,
                  .releaseRealm env.globalObject] } := by
  unfold jerry_port_module_resolve
  rw [ha, if_neg (by simp), hn]
  simp only [hmiss, hread, herr, if_pos]

lemma resolve_insert (env : ResolveEnv) (st : PortState)
    (specifier referrer : JerryValue) (u : Nat) (path : String)
    (src : List Nat)
    (ha : env.allocSpecifierBuf = true)
    (hn : (jerry_port_normalize_path env (env.stringOf specifier)
      (resolveBasePath st referrer).1
      (resolveBasePath st referrer).2).path_p = some path)
    (hmiss : jerry_port_module_lookup env.globalObject path st.modules =
      none)
    (hread : env.readSource path = some src)
    (hok : jerry_value_is_error
      (env.parse src (env.stringOf specifier)) = false)
    (hr : env.allocRecord = true) :
    jerry_port_module_resolve env st specifier referrer u =
      { outcome := .ok (env.parse src (env.stringOf specifier)),
        state :=
          { modules :=
              { path_p := path,
                base_path_length :=
                  jerry_port_get_directory_end false path.data,
                realm := env.globalObject,
                module := env.parse src (env.stringOf specifier) } ::
              st.modules,
            attachments :=
              (env.parse src (env.stringOf specifier),
               { path_p := path,
                 base_path_length :=
                   jerry_port_get_directory_end false path.data,
                 realm := env.globalObject,
                 module := env.parse src (env.stringOf specifier) }) ::
              st.attachments },
        trace := [.readSource path,
                  .parseCall path (env.stringOf specifier),
                  .freeSourceBuf, .freeSpecifierBuf,
                  .acquireModule
                    (env.parse src (env.stringOf specifier))] } := by
  unfold jerry_port_module_resolve
  rw [ha, if_neg (by simp), hn]
  simp only [hmiss, hread, hok, hr, if_neg, Bool.false_eq_true,
    Bool.true_eq_false, if_false, jerry_acquire_value]

lemma resolve_state_shape (env : ResolveEnv) (st : PortState)
    (specifier referrer : JerryValue) (u : Nat) :
    (jerry_port_module_resolve env st specifier referrer u).state = st ∨
    (∃ (path : String) (ret : JerryValue),
      jerry_port_module_lookup env.globalObject path st.modules = none ∧
      (jerry_port_module_resolve env st specifier referrer
        u).state.modules =
        { path_p := path,
          base_path_length := jerry_port_get_directory_end false path.data,
          realm := env.globalObject, module := ret } :: st.modules ∧
      (jerry_port_module_resolve env st specifier referrer u).outcome =
        .ok ret) := by
  unfold jerry_port_module_resolve
  split
  · exact Or.inl rfl
  · split
    · exact Or.inl rfl
    · rename_i path_p hnorm
      split
      · exact Or.inl rfl
      · rename_i hmiss
        split
        · exact Or.inl rfl
        · rename_i src hread
          split
          · exact Or.inl rfl
          · split
            · exact Or.inl rfl
            · exact Or.inr ⟨path_p,
                env.parse src (env.stringOf specifier), hmiss, rfl, rfl⟩

/-! ## Per-context uniqueness invariant -/

lemma free_loop_sublist (ra : Bool) (c : JerryValue)
    (ms : List jerry_port_module_t) :
    ((jerry_port_module_free_loop ra c ms).1).Sublist ms := by
  induction ms with
  | nil => exact List.Sublist.refl []
  | cons m rest ih =>
    have hred : jerry_port_module_free_loop ra c (m :: rest) =
        if ra = true ∨ m.realm = c then
          ((jerry_port_module_free_loop ra c rest).1,
            FreeEvent.freeRecord m.path_p m.realm m.module ::
              (jerry_port_module_free_loop ra c rest).2)
        else (m :: (jerry_port_module_free_loop ra c rest).1,
          (jerry_port_module_free_loop ra c rest).2) := rfl
    by_cases h : ra = true ∨ m.realm = c
    · rw [hred, if_pos h]
      exact List.Sublist.cons m ih
    · rw [hred, if_neg h]
      exact List.Sublist.cons₂ m ih

lemma unique_keys_release (realm : JerryValue) (st : PortState)
    (h : UniqueKeys st.modules) :
    UniqueKeys (jerry_port_module_release realm st).1.modules := by
  have heq : (jerry_port_module_release realm st).1.modules =
      (jerry_port_module_free_loop (! jerry_value_is_object realm) realm
        st.modules).1 := rfl
  rw [heq]
  exact List.Pairwise.sublist (free_loop_sublist _ _ _) h

lemma unique_keys_resolve (env : ResolveEnv) (st : PortState)
    (specifier referrer : JerryValue) (u : Nat)
    (h : UniqueKeys st.modules) :
    UniqueKeys (jerry_port_module_resolve env st specifier referrer
      u).state.modules := by
  rcases resolve_state_shape env st specifier referrer u with
    heq | ⟨path, ret, hnone, hmods, _⟩
  · rw [heq]
    exact h
  · rw [hmods]
    refine List.Pairwise.cons ?_ h
    intro b hb hk
    exact (lookup_eq_none_iff env.globalObject path st.modules).mp hnone b hb
      ⟨hk.1.symm, hk.2.symm⟩

/-- C2: every registry state reachable by any sequence of resolve and
release calls from the initialized manager has at most one record per
(realm, canonical path) key, because resolve always scans for the key
before inserting and release only removes records. -/
theorem registry_unique_keys (st : PortState) (h : Reachable st) :
    UniqueKeys st.modules := by
  induction h with
  | init => exact List.Pairwise.nil
  | step_resolve env specifier referrer u hst ih =>
    exact unique_keys_resolve env _ specifier referrer u ih
  | step_release realm hst ih =>
    exact unique_keys_release realm _ ih

/-- Environment used by the concrete witnesses: every allocation succeeds,
the working directory is `/home`, every file reads as empty source, and
parsing yields the module object `7`. -/
def sampleEnv : ResolveEnv :=
  { stringOf := fun v => match v with | .string s => s | _ => "",
    globalObject := .object 0,
    getcwdResult := some "/home",
    cwdFallbackAlloc := true,
    allocInPathZ := true,
    allocBasePathZ := true,
    allocPathOut := true,
    allocSpecifierBuf := true,
    allocRecord := true,
    getAbsolute := fun b p => b ++ "/" ++ p,
    readSource := fun _ => some [],
    parse := fun _ _ => .object 7 }

/-- Witness for C2: the uniqueness invariant evaluated on the state reached
by one concrete resolve call from the initialized manager. -/
theorem registry_unique_keys_witness :
    UniqueKeys (jerry_port_module_resolve sampleEnv initState
      (.string "a.js") .undefined 0).state.modules :=
  registry_unique_keys _
    (Reachable.step_resolve sampleEnv (.string "a.js") .undefined 0
      Reachable.init)

/-! ## Error-path claims -/

/-- C4: when the canonical path cannot be read (missing file, directory, or
I/O failure), resolve returns the syntax-error-shaped failure value — not
a crash and not a distinct not-found kind — leaves the registry state
unchanged, and frees the canonical-path buffer, frees the specifier
buffer and releases the realm reference before returning. -/
theorem missing_file_failure (env : ResolveEnv) (st : PortState)
    (specifier referrer : JerryValue) (u : Nat) (path : String)
    (ha : env.allocSpecifierBuf = true)
    (hn : (jerry_port_normalize_path env (env.stringOf specifier)
      (resolveBasePath st referrer).1
      (resolveBasePath st referrer).2).path_p = some path)
    (hmiss : jerry_port_module_lookup env.globalObject path st.modules =
      none)
    (hread : env.readSource path = none) :
    jerry_port_module_resolve env st specifier referrer u =
      { outcome := .ok (jerry_create_error .syn "Module file not found"),
        state := st,
        trace := [.readSource path, .freePathBuf, .freeSpecifierBuf,
                  .releaseRealm env.globalObject] } ∧
    jerry_value_is_error
      (jerry_create_error .syn "Module file not found") = true :=
  ⟨resolve_missing env st specifier referrer u path ha hn hmiss hread, rfl⟩

/-- Witness for C4: resolving `./missing.js` with no referrer in an empty
registry when the file read fails yields the syntax-error-shaped failure
and leaves the registry empty. -/
theorem missing_file_failure_witness :
    jerry_port_module_resolve
      { sampleEnv with readSource := fun _ => none } initState
      (.string "./missing.js") .undefined 0 =
      { outcome := .ok (jerry_create_error .syn "Module file not found"),
        state := initState,
        trace := [.readSource "/home/./missing.js", .freePathBuf,
                  .freeSpecifierBuf, .releaseRealm (.object 0)] } :=
  (missing_file_failure { sampleEnv with readSource := fun _ => none }
    initState (.string "./missing.js") .undefined 0 "/home/./missing.js"
    rfl rfl rfl rfl).1

/-- C5: when parsing fails, resolve returns exactly the error value the
parse collaborator produced, inserts nothing into the registry, and frees
the source buffer, the specifier buffer and the canonical-path buffer and
releases the realm reference before returning. -/
theorem parse_failure_atomicity (env : ResolveEnv) (st : PortState)
    (specifier referrer : JerryValue) (u : Nat) (path : String)
    (src : List Nat)
    (ha : env.allocSpecifierBuf = true)
    (hn : (jerry_port_normalize_path env (env.stringOf specifier)
      (resolveBasePath st referrer).1
      (resolveBasePath st referrer).2).path_p = some path)
    (hmiss : jerry_port_module_lookup env.globalObject path st.modules =
      none)
    (hread : env.readSource path = some src)
    (herr : jerry_value_is_error
      (env.parse src (env.stringOf specifier)) = true) :
    jerry_port_module_resolve env st specifier referrer u =
      { outcome := .ok (env.parse src (env.stringOf specifier)),
        state := st,
        trace := [.readSource path,
                  .parseCall path (env.stringOf specifier),
                  .freeSourceBuf, .freeSpecifierBuf, .freePathBuf,
                  .releaseRealm env.globalObject] } :=
  resolve_parse_error env st specifier referrer u path src ha hn hmiss hread
    herr

/-- Witness for C5: a parser that always fails with a concrete error value
propagates that exact value, with the registry left empty. -/
theorem parse_failure_atomicity_witness :
    jerry_port_module_resolve
      { sampleEnv with parse := fun _ _ => .errorVal .syn "bad token" }
      initState (.string "a.js") .undefined 0 =
      { outcome := .ok (.errorVal .syn "bad token"),
        state := initState,
        trace := [.readSource "/home/a.js",
                  .parseCall "/home/a.js" "a.js",
                  .freeSourceBuf, .freeSpecifierBuf, .freePathBuf,
                  .releaseRealm (.object 0)] } :=
  parse_failure_atomicity
    { sampleEnv with parse := fun _ _ => .errorVal .syn "bad token" }
    initState (.string "a.js") .undefined 0 "/home/a.js" [] rfl rfl rfl rfl
    rfl

/-- C9: resolve is total only when its two unchecked allocations succeed.
If the specifier-buffer `malloc` fails, the code writes through the NULL
pointer (undefined behavior) instead of returning an error; likewise if
the module-record `malloc` fails on the insert path.  By contrast an
allocation failure inside canonicalization is checked and produces the
out-of-memory error value. -/
theorem unchecked_allocation_crash (env : ResolveEnv) (st : PortState)
    (specifier referrer : JerryValue) (u : Nat) :
    (env.allocSpecifierBuf = false →
      jerry_port_module_resolve env st specifier referrer u =
        { outcome := .nullDeref, state := st, trace := [] }) ∧
    (∀ (path : String) (src : List Nat),
      env.allocSpecifierBuf = true →
      (jerry_port_normalize_path env (env.stringOf specifier)
        (resolveBasePath st referrer).1
        (resolveBasePath st referrer).2).path_p = some path →
      jerry_port_module_lookup env.globalObject path st.modules = none →
      env.readSource path = some src →
      jerry_value_is_error (env.parse src (env.stringOf specifier)) =
        false →
      env.allocRecord = false →
      (jerry_port_module_resolve env st specifier referrer u).outcome =
        .nullDeref) ∧
    (env.allocSpecifierBuf = true →
      (jerry_port_normalize_path env (env.stringOf specifier)
        (resolveBasePath st referrer).1
        (resolveBasePath st referrer).2).path_p = none →
      (jerry_port_module_resolve env st specifier referrer u).outcome =
        .ok (jerry_create_error .common "Out of memory")) := by
  refine ⟨?_, ?_, ?_⟩
  · intro ha
    unfold jerry_port_module_resolve
    rw [ha, if_pos rfl]
  · intro path src ha hn hmiss hread hok hr
    unfold jerry_port_module_resolve
    rw [ha, if_neg (by simp), hn]
    simp only [hmiss, hread, hok, hr, Bool.false_eq_true, if_false]
    rw [if_pos trivial]
  · intro ha hn
    unfold jerry_port_module_resolve
    rw [ha, if_neg (by simp), hn]

/-- Witness for C9: with the specifier-buffer allocation failing the call is
a null dereference; with only the record allocation failing the insert
path dereferences NULL; with a canonicalization allocation failing the
call returns the out-of-memory error value. -/
theorem unchecked_allocation_crash_witness :
    jerry_port_module_resolve
      { sampleEnv with allocSpecifierBuf := false } initState
      (.string "a.js") .undefined 0 =
      { outcome := .nullDeref, state := initState, trace := [] } ∧
    (jerry_port_module_resolve { sampleEnv with allocRecord := false }
      initState (.string "a.js") .undefined 0).outcome = .nullDeref ∧
    (jerry_port_module_resolve { sampleEnv with allocPathOut := false }
      initState (.string "a.js") .undefined 0).outcome =
      .ok (jerry_create_error .common "Out of memory") :=
  ⟨(unchecked_allocation_crash
      { sampleEnv with allocSpecifierBuf := false } initState
      (.string "a.js") .undefined 0).1 rfl,
   (unchecked_allocation_crash { sampleEnv with allocRecord := false }
      initState (.string "a.js") .undefined 0).2.1 "/home/a.js" [] rfl rfl
      rfl rfl rfl rfl,
   (unchecked_allocation_crash { sampleEnv with allocPathOut := false }
      initState (.string "a.js") .undefined 0).2.2 rfl rfl⟩

/-! ## Cache-hit reuse and at-most-once parse -/

/-- C1: when a module record for the current realm and the canonical path is
already in the registry, resolve frees the temporary canonical-path and
specifier buffers, releases the realm reference, and returns a newly
acquired reference-equal handle to the cached module, calling neither the
file-read nor the parse collaborator; consequently, after a resolve that
inserted a record for a path, a second resolve reaching the same path in
the same realm observes the reference-equal handle and performs no parse
and no read. -/
theorem at_most_once_parse (env : ResolveEnv) (st : PortState)
    (specifier referrer : JerryValue) (u : Nat) :
    (∀ (path : String) (m : jerry_port_module_t),
      env.allocSpecifierBuf = true →
      (jerry_port_normalize_path env (env.stringOf specifier)
        (resolveBasePath st referrer).1
        (resolveBasePath st referrer).2).path_p = some path →
      jerry_port_module_lookup env.globalObject path st.modules = some m →
      jerry_port_module_resolve env st specifier referrer u =
        { outcome := .ok (jerry_acquire_value m.module), state := st,
          trace := [.freePathBuf, .freeSpecifierBuf,
                    .releaseRealm env.globalObject,
                    .acquireModule m.module] } ∧
      (∀ (p r : String), Event.parseCall p r ∉
        (jerry_port_module_resolve env st specifier referrer u).trace) ∧
      (∀ p : String, Event.readSource p ∉
        (jerry_port_module_resolve env st specifier referrer u).trace)) ∧
    (∀ (rec : jerry_port_module_t) (env2 : ResolveEnv)
        (spec2 ref2 : JerryValue) (u2 : Nat),
      (jerry_port_module_resolve env st specifier referrer
        u).state.modules = rec :: st.modules →
      env2.allocSpecifierBuf = true →
      env2.globalObject = env.globalObject →
      (jerry_port_normalize_path env2 (env2.stringOf spec2)
        (resolveBasePath (jerry_port_module_resolve env st specifier
          referrer u).state ref2).1
        (resolveBasePath (jerry_port_module_resolve env st specifier
          referrer u).state ref2).2).path_p = some rec.path_p →
      (jerry_port_module_resolve env st specifier referrer u).outcome =
        .ok rec.module ∧
      (jerry_port_module_resolve env2
        (jerry_port_module_resolve env st specifier referrer u).state
        spec2 ref2 u2).outcome = .ok rec.module ∧
      (∀ (p r : String), Event.parseCall p r ∉
        (jerry_port_module_resolve env2
          (jerry_port_module_resolve env st specifier referrer u).state
          spec2 ref2 u2).trace) ∧
      (∀ p : String, Event.readSource p ∉
        (jerry_port_module_resolve env2
          (jerry_port_module_resolve env st specifier referrer u).state
          spec2 ref2 u2).trace)) := by
  constructor
  · intro path m ha hn hm
    have heq := resolve_hit env st specifier referrer u path m ha hn hm
    refine ⟨heq, ?_, ?_⟩
    · intro p r
      rw [heq]
      simp
    · intro p
      rw [heq]
      simp
  · intro rec env2 spec2 ref2 u2 hmods h2a h2g h2n
    rcases resolve_state_shape env st specifier referrer u with
      heq | ⟨path, ret, _, hmods2, hout⟩
    · exfalso
      rw [heq] at hmods
      have hlen := congrArg List.length hmods
      simp at hlen
    · have hrec : rec =
          { path_p := path,
            base_path_length := jerry_port_get_directory_end false
              path.data,
            realm := env.globalObject, module := ret } := by
        have := hmods.symm.trans hmods2
        exact (List.cons.injEq _ _ _ _ ▸ this).1
      have hrealm : rec.realm = env2.globalObject := by
        rw [hrec, h2g]
      have hmod : rec.module = ret := by
        rw [hrec]
      have hlook : jerry_port_module_lookup env2.globalObject rec.path_p
          (jerry_port_module_resolve env st specifier referrer
            u).state.modules = some rec := by
        rw [hmods]
        have hred : jerry_port_module_lookup env2.globalObject rec.path_p
            (rec :: st.modules) =
            if rec.realm = env2.globalObject ∧ rec.path_p = rec.path_p
            then some rec
            else jerry_port_module_lookup env2.globalObject rec.path_p
              st.modules := rfl
        rw [hred, if_pos ⟨hrealm, rfl⟩]
      have heq2 := resolve_hit env2
        (jerry_port_module_resolve env st specifier referrer u).state
        spec2 ref2 u2 rec.path_p rec h2a h2n hlook
      refine ⟨?_, ?_, ?_, ?_⟩
      · rw [hout, hmod]
      · rw [heq2]
        rfl
      · intro p r
        rw [heq2]
        simp
      · intro p
        rw [heq2]
        simp

/-- Witness for C1: after resolving `a.js` once from the empty registry, a
second resolve of the same specifier returns the same module handle
(`object 7`) with no parse and no read in its trace. -/
theorem at_most_once_parse_witness :
    (jerry_port_module_resolve sampleEnv
      (jerry_port_module_resolve sampleEnv initState (.string "a.js")
        .undefined 0).state
      (.string "a.js") .undefined 1).outcome = .ok (.object 7) ∧
    (∀ (p r : String), Event.parseCall p r ∉
      (jerry_port_module_resolve sampleEnv
        (jerry_port_module_resolve sampleEnv initState (.string "a.js")
          .undefined 0).state
        (.string "a.js") .undefined 1).trace) := by
  have h := (at_most_once_parse sampleEnv initState (.string "a.js")
    .undefined 0).2
    { path_p := "/home/a.js",
      base_path_length := jerry_port_get_directory_end false
        "/home/a.js".data,
      realm := .object 0, module := .object 7 }
    sampleEnv (.string "a.js") .undefined 1 rfl rfl rfl rfl
  exact ⟨h.2.1, h.2.2.1⟩

/-! ## The cache key comes from the current realm, not the arguments -/

/-- C8: the resolver ignores its `user_p` argument entirely — results are
identical for any two values of it — and the realm half of the cache key
is the global object current at call time: every record the call adds to
the registry is tagged with that global object, and a cache hit is a
lookup keyed by that global object. -/
theorem resolver_context_from_global (env : ResolveEnv) (st : PortState)
    (specifier referrer : JerryValue) (u u2 : Nat) :
    jerry_port_module_resolve env st specifier referrer u =
      jerry_port_module_resolve env st specifier referrer u2 ∧
    (∀ m : jerry_port_module_t,
      m ∈ (jerry_port_module_resolve env st specifier referrer
        u).state.modules →
      m ∈ st.modules ∨ m.realm = env.globalObject) ∧
    (∀ (path : String) (m : jerry_port_module_t),
      env.allocSpecifierBuf = true →
      (jerry_port_normalize_path env (env.stringOf specifier)
        (resolveBasePath st referrer).1
        (resolveBasePath st referrer).2).path_p = some path →
      jerry_port_module_lookup env.globalObject path st.modules = some m →
      (jerry_port_module_resolve env st specifier referrer u).outcome =
        .ok (jerry_acquire_value m.module)) := by
  refine ⟨rfl, ?_, ?_⟩
  · intro m hm
    rcases resolve_state_shape env st specifier referrer u with
      heq | ⟨path, ret, _, hmods, _⟩
    · rw [heq] at hm
      exact Or.inl hm
    · rw [hmods] at hm
      rcases List.mem_cons.mp hm with rfl | hm2
      · exact Or.inr rfl
      · exact Or.inl hm2
  · intro path m ha hn hm
    rw [resolve_hit env st specifier referrer u path m ha hn hm]

/-- Witness for C8: the resolver run with user data 0 and with user data 42
returns identical results, and on a registry already holding `/home/a.js`
under realm `object 0` the hit returns the cached handle. -/
theorem resolver_context_from_global_witness :
    jerry_port_module_resolve sampleEnv initState (.string "a.js")
      .undefined 0 =
      jerry_port_module_resolve sampleEnv initState (.string "a.js")
        .undefined 42 ∧
    (jerry_port_module_resolve sampleEnv
      { modules := [{ path_p := "/home/a.js", base_path_length := 6,
                      realm := .object 0, module := .object 9 }],
        attachments := [] }
      (.string "a.js") .undefined 0).outcome =
      .ok (jerry_acquire_value (.object 9)) :=
  ⟨(resolver_context_from_global sampleEnv initState (.string "a.js")
      .undefined 0 42).1,
   (resolver_context_from_global sampleEnv
      { modules := [{ path_p := "/home/a.js", base_path_length := 6,
                      realm := .object 0, module := .object 9 }],
        attachments := [] }
      (.string "a.js") .undefined 0 0).2.2 "/home/a.js"
      { path_p := "/home/a.js", base_path_length := 6,
        realm := .object 0, module := .object 9 } rfl rfl rfl⟩

end JerryPort
